import Mathlib

/-!
Verification of the court-booking core of the Calling-Agent backend.

The definitions below are a shallow embedding of the Python sources:
  FastAPIBackend/utils/time_utils.py
  FastAPIBackend/utils/slot_utils.py
  FastAPIBackend/services/calendar_service.py
  FastAPIBackend/services/booking_service.py
Pure functions become Lean functions; the Google-Calendar collaborator is
modelled as explicit data (an initialization flag, a per-court read response
and a per-court write result); Python exceptions become Except values that the
orchestrator catch-all converts to structured failure responses, exactly as
the try/except blocks in booking_service.py do.
-/

namespace CallingAgent

/-! ## String helpers (Python substring containment and int parsing) -/

/-- Characters Python's str.strip and int() treat as whitespace (ASCII part). -/
def isPyWs (c : Char) : Bool :=
  c == ' ' || c == '\t' || c == '\n' || c == '\r' || c == '\x0b' || c == '\x0c'

/-- Strip whitespace from both ends of a char list, as str.strip does. -/
def pyStrip (l : List Char) : List Char :=
  ((l.dropWhile isPyWs).reverse.dropWhile isPyWs).reverse

/-- Python str.split with a one-character separator: splitCharAux sep rest acc
walks rest, acc holding the current piece reversed. -/
def splitCharAux (sep : Char) : List Char → List Char → List (List Char)
  | [], acc => [acc.reverse]
  | c :: rest, acc =>
    if c == sep then acc.reverse :: splitCharAux sep rest []
    else splitCharAux sep rest (c :: acc)

/-- Python str.split(sep) for a one-character separator. -/
def pySplit (s : String) (sep : Char) : List String :=
  (splitCharAux sep s.data []).map String.mk

/-- Python str.join for a list of pieces. -/
def pyJoin (sep : String) : List String → String
  | [] => ""
  | [x] => x
  | x :: y :: xs => x ++ sep ++ pyJoin sep (y :: xs)

/-- charsPrefix p l is true when p is a prefix of the char list l. -/
def charsPrefix : List Char → List Char → Bool
  | [], _ => true
  | _ :: _, [] => false
  | a :: as, b :: bs => a == b && charsPrefix as bs

/-- charsContains l p is true when p occurs as a contiguous sublist of l. -/
def charsContains (p : List Char) : List Char → Bool
  | [] => charsPrefix p []
  | c :: rest => charsPrefix p (c :: rest) || charsContains p rest

/-- Python substring test, as in "pat in s". -/
def containsStr (s pat : String) : Bool :=
  charsContains pat.data s.data

/-- True when the string is non-empty and all characters are ASCII digits. -/
def allDigits (s : String) : Bool :=
  !s.data.isEmpty && s.data.all Char.isDigit

/-- Numeric value of a digit string (most significant digit first). -/
def digitsVal (l : List Char) : Nat :=
  l.foldl (fun n c => n * 10 + (c.toNat - 48)) 0

/-- Python int(str): optional surrounding whitespace, optional sign, digits.
(Underscore digit grouping and non-ASCII digits are not modelled; no claim
touches them.) -/
def pyInt (s : String) : Option Int :=
  match pyStrip s.data with
  | [] => none
  | c :: rest =>
    if c == '-' then
      if !rest.isEmpty && rest.all Char.isDigit then some (-(digitsVal rest : Int)) else none
    else if c == '+' then
      if !rest.isEmpty && rest.all Char.isDigit then some (digitsVal rest : Int) else none
    else
      if (c :: rest).all Char.isDigit then some (digitsVal (c :: rest) : Int) else none

/-- Two-digit zero-padded rendering of a number below 100, as strftime does. -/
def pad2 (n : Nat) : String :=
  if n < 10 then "0" ++ toString n else toString n

/-- Render minutes-since-midnight as HH:MM, as strftime("%H:%M") does. -/
def format_hm (m : Nat) : String :=
  pad2 (m / 60) ++ ":" ++ pad2 (m % 60)

/-! ## time_utils.py -/

/-- Error message raised by parse_time in time_utils.py. -/
def timeFormatErr (t : String) : String :=
  "Invalid time format: " ++ t ++ ". Expected HH:MM format."

/-- parse_time: datetime.strptime(s, "%H:%M").time(), as minutes since
midnight; strptime accepts one or two digits per field with hour below 24 and
minute below 60, and nothing else. -/
def parse_time (s : String) : Option Nat :=
  match pySplit s ':' with
  | [h, m] =>
    if allDigits h && h.length ≤ 2 && allDigits m && m.length ≤ 2 then
      let hv := digitsVal h.data
      let mv := digitsVal m.data
      if hv ≤ 23 && mv ≤ 59 then some (hv * 60 + mv) else none
    else none
  | _ => none

/-- Gregorian leap-year rule, as datetime uses. -/
def isLeap (y : Nat) : Bool :=
  y % 4 == 0 && (y % 100 != 0 || y % 400 == 0)

/-- Number of days in a month, as datetime uses. -/
def daysInMonth (y m : Nat) : Nat :=
  if m == 2 then (if isLeap y then 29 else 28)
  else if m == 4 || m == 6 || m == 9 || m == 11 then 30
  else 31

/-- parse_date: datetime.strptime(s, "%Y-%m-%d") as a (year, month, day)
triple; strptime validates month and day ranges against the real calendar. -/
def parse_date (s : String) : Option (Nat × Nat × Nat) :=
  match pySplit s '-' with
  | [y, m, d] =>
    if allDigits y && y.length == 4 && allDigits m && m.length ≤ 2
        && allDigits d && d.length ≤ 2 then
      let yv := digitsVal y.data
      let mv := digitsVal m.data
      let dv := digitsVal d.data
      if 1 ≤ mv && mv ≤ 12 && 1 ≤ dv && dv ≤ daysInMonth yv mv then
        some (yv, mv, dv)
      else none
    else none
  | _ => none

/-- combine_datetime: parses the date then the time, raising (here: Except
error) the corresponding format message on the first failure.  The resulting
timezone-aware instant is only ever handed to the calendar collaborator, which
this embedding models by its responses, so the value itself is Unit. -/
def combine_datetime (date_str time_str : String) : Except String Unit :=
  match parse_date date_str with
  | none => .error ("Invalid date format: " ++ date_str ++ ". Expected YYYY-MM-DD format.")
  | some _ =>
    match parse_time time_str with
    | none => .error (timeFormatErr time_str)
    | some _ => .ok ()

/-- is_within_operating_hours from time_utils.py: parses all four times (the
first malformed one yields its parse error as the reason), then rejects
start before open, then end after close. -/
def is_within_operating_hours (start_time end_time open_time close_time : String) :
    Bool × String :=
  match parse_time start_time with
  | none => (false, timeFormatErr start_time)
  | some s =>
    match parse_time end_time with
    | none => (false, timeFormatErr end_time)
    | some e =>
      match parse_time open_time with
      | none => (false, timeFormatErr open_time)
      | some o =>
        match parse_time close_time with
        | none => (false, timeFormatErr close_time)
        | some c =>
          if s < o then (false, "Facility opens at " ++ open_time)
          else if c < e then (false, "Facility closes at " ++ close_time)
          else (true, "")

/-- calculate_end_time from time_utils.py: adds the duration to the start on
an arbitrary date and formats the resulting wall-clock time, so the result
wraps modulo 24 hours.  A malformed start time raises (Except error). -/
def calculate_end_time (start_time : String) (duration_minutes : Int) :
    Except String String :=
  match parse_time start_time with
  | none => .error (timeFormatErr start_time)
  | some s => .ok (format_hm (((s : Int) + duration_minutes) % 1440).toNat)

/-! ## slot_utils.py -/

/-- validate_slot_alignment from slot_utils.py.  Python unpacks
start_time.split(":") into two variables (anything but exactly two parts
raises ValueError, caught as a format error), converts only the minute part
with int() (failure caught as a format error), and rejects a non-zero minute.
The hour part is never inspected. -/
def validate_slot_alignment (start_time : String) : Bool × String :=
  match pySplit start_time ':' with
  | [_, mStr] =>
    match pyInt mStr with
    | some minute =>
      if minute != 0 then
        (false, "Start time must align with hourly boundaries (e.g., 06:00, 14:00). Got " ++ start_time)
      else (true, "")
    | none => (false, "Invalid time format: " ++ start_time ++ ". Expected HH:MM")
  | _ => (false, "Invalid time format: " ++ start_time ++ ". Expected HH:MM")

/-- validate_duration from slot_utils.py (callers always pass both bounds;
the Python defaults of 60 live in validate_booking_slot's rule lookups).
Python raises ZeroDivisionError when duration_multiples is zero; claims only
concern non-zero multiples, where Int emod agrees with Python mod for a
positive divisor. -/
def validate_duration (duration_minutes minimum_duration duration_multiples : Int) :
    Bool × String :=
  if duration_minutes < minimum_duration then
    (false, "Duration must be at least " ++ toString minimum_duration ++ " minutes")
  else if duration_minutes % duration_multiples != 0 then
    (false, "Duration must be a multiple of " ++ toString duration_multiples
      ++ " minutes. Got " ++ toString duration_minutes)
  else (true, "")

/-- The booking_rules dictionary of a facility: each key may be absent.
(Values of other dynamic types are not modelled; the configuration schema
only ever stores numbers and booleans here.) -/
structure BookingRules where
  minimum_duration : Option Int
  duration_multiples : Option Int
  fixed_slots : Option Bool
deriving DecidableEq

/-- validate_booking_slot from slot_utils.py: dict .get defaults of 60, 60 and
True, the alignment check only under fixed_slots, then the duration check. -/
def validate_booking_slot (start_time : String) (duration_minutes : Int)
    (booking_rules : BookingRules) : Bool × String :=
  if booking_rules.fixed_slots.getD true && !(validate_slot_alignment start_time).1 then
    (false, (validate_slot_alignment start_time).2)
  else
    if !(validate_duration duration_minutes (booking_rules.minimum_duration.getD 60)
        (booking_rules.duration_multiples.getD 60)).1 then
      (false, (validate_duration duration_minutes (booking_rules.minimum_duration.getD 60)
        (booking_rules.duration_multiples.getD 60)).2)
    else (true, "")

/-- validate_court_numbers from slot_utils.py: non-empty, each number within
1..number_of_courts (first offender reported), no duplicates. -/
def validate_court_numbers (court_numbers : List Int) (number_of_courts : Int) :
    Bool × String :=
  if court_numbers.isEmpty then
    (false, "At least one court must be specified")
  else
    match court_numbers.find? (fun c => decide (c < 1) || decide (number_of_courts < c)) with
    | some c =>
      (false, "Invalid court number " ++ toString c ++ ". Facility has courts 1-"
        ++ toString number_of_courts)
    | none =>
      if court_numbers.length != court_numbers.eraseDups.length then
        (false, "Duplicate court numbers found in request")
      else (true, "")

/-! ## calendar_service.py

The Google Calendar collaborator is modelled by the data the code observes of
it: whether the client was initialized, the response to the per-court events
list query (either an HttpError or a list of events with summary and
description), and the event id returned by the per-court insert (none both
for an HttpError and for the uninitialized client).  The query window and
calendar id do not vary within one orchestrator call, so responses are
indexed by court number only, which also lets distinct reads fail
independently exactly as distinct HTTP calls can. -/

/-- An external calendar event as the availability scan sees it. -/
structure CalEvent where
  summary : String
  description : String
deriving DecidableEq

/-- The calendar collaborator state observed during one orchestrator call. -/
structure Calendar where
  initialized : Bool
  read : Int → Except Unit (List CalEvent)
  write : Int → Option String

/-- check_court_availability from calendar_service.py: fail open when the
client is uninitialized or the list call raises HttpError; otherwise the
court is booked exactly when some event's summary contains the "Court N"
marker and the facility id occurs in its description or summary. -/
def check_court_availability (cal : Calendar) (court_number : Int)
    (facility_id : String) : Bool :=
  if !cal.initialized then true
  else
    match cal.read court_number with
    | .error _ => true
    | .ok events =>
      !(events.any (fun e =>
        containsStr e.summary ("Court " ++ toString court_number) &&
        (containsStr e.description facility_id || containsStr e.summary facility_id)))

/-- Court numbers 1..total, as Python range(1, total_courts + 1). -/
def court_list (total_courts : Int) : List Int :=
  (List.range total_courts.toNat).map (fun (i : Nat) => (i : Int) + 1)

/-- get_available_courts from calendar_service.py: the courts 1..total whose
individual availability check passes, in loop order. -/
def get_available_courts (cal : Calendar) (facility_id : String)
    (total_courts : Int) : List Int :=
  (court_list total_courts).filter (fun c => check_court_availability cal c facility_id)

/-- create_booking_event from calendar_service.py: none when the client is
uninitialized or the insert raises HttpError, otherwise the created event id. -/
def create_booking_event (cal : Calendar) (court_number : Int) : Option String :=
  if !cal.initialized then none else cal.write court_number

/-! ## Schemas (booking_schemas.py, function_call_schemas.py)

The pricing, rentals and coaching tables of a facility and the diagnostic
data dictionaries of the responses are opaque to every claim (they are only
echoed or templated into prompts), so they are not carried here. -/

/-- Facility configuration (booking_schemas.py), the fields the orchestrator
reads. -/
structure Facility where
  facility_id : String
  facility_name : String
  phone_number : String
  number_of_courts : Int
  open_time : String
  close_time : String
  booking_rules : BookingRules
deriving DecidableEq

/-- check_availability function-call request. -/
structure CheckAvailabilityRequest where
  facility_id : String
  date : String
  start_time : String
  duration_minutes : Int
  number_of_courts : Int
deriving DecidableEq

/-- check_availability function-call response (diagnostic data payload not
modelled). -/
structure CheckAvailabilityResponse where
  success : Bool
  available : Bool
  free_courts : List Int
  reason_if_not_available : Option String
  error : Option String
deriving DecidableEq

/-- create_booking function-call request. -/
structure CreateBookingRequest where
  facility_id : String
  date : String
  start_time : String
  duration_minutes : Int
  name : String
  phone_number : String
  court_numbers : List Int
deriving DecidableEq

/-- create_booking function-call response (diagnostic data payload not
modelled). -/
structure CreateBookingResponse where
  success : Bool
  booking_id : Option String
  message : Option String
  error : Option String
deriving DecidableEq

/-! ## booking_service.py

The facility directory is passed as a lookup function (get_facility_by_id).
Python exceptions escaping a step (the two parse sites: calculate_end_time
and combine_datetime) are the Except error branches; the surrounding
try/except turns them into structured failure responses with the
operation-specific prefix, exactly as booking_service.py lines 98-103 and
220-224 do. -/

/-- check_availability from booking_service.py. -/
def check_availability (lookup : String → Option Facility) (cal : Calendar)
    (req : CheckAvailabilityRequest) : CheckAvailabilityResponse :=
  match lookup req.facility_id with
  | none =>
    { success := false, available := false, free_courts := [],
      reason_if_not_available := none,
      error := some ("Facility not found: " ++ req.facility_id) }
  | some facility =>
    if !(validate_booking_slot req.start_time req.duration_minutes facility.booking_rules).1 then
      { success := false, available := false, free_courts := [],
        reason_if_not_available :=
          some (validate_booking_slot req.start_time req.duration_minutes facility.booking_rules).2,
        error := none }
    else
      match calculate_end_time req.start_time req.duration_minutes with
      | .error e =>
        { success := false, available := false, free_courts := [],
          reason_if_not_available := none,
          error := some ("Error checking availability: " ++ e) }
      | .ok end_time =>
        if !(is_within_operating_hours req.start_time end_time
            facility.open_time facility.close_time).1 then
          { success := false, available := false, free_courts := [],
            reason_if_not_available :=
              some (is_within_operating_hours req.start_time end_time
                facility.open_time facility.close_time).2,
            error := none }
        else
          match combine_datetime req.date req.start_time with
          | .error e =>
            { success := false, available := false, free_courts := [],
              reason_if_not_available := none,
              error := some ("Error checking availability: " ++ e) }
          | .ok _ =>
            if ((get_available_courts cal facility.facility_id facility.number_of_courts).length : Int)
                < req.number_of_courts then
              { success := true, available := false,
                free_courts := get_available_courts cal facility.facility_id facility.number_of_courts,
                reason_if_not_available := some ("Only "
                  ++ toString (get_available_courts cal facility.facility_id facility.number_of_courts).length
                  ++ " court(s) available, but " ++ toString req.number_of_courts
                  ++ " requested"),
                error := none }
            else
              { success := true, available := true,
                free_courts := get_available_courts cal facility.facility_id facility.number_of_courts,
                reason_if_not_available := none, error := none }

/-- The booking_ids list collected by the create_booking write loop: one
create_booking_event call per requested court, keeping only truthy results
(Python drops both None and the empty string). -/
def collected_booking_ids (cal : Calendar) (court_numbers : List Int) : List String :=
  court_numbers.filterMap (fun c =>
    match create_booking_event cal c with
    | some eid => if eid.data.isEmpty then none else some eid
    | none => none)

/-- create_booking from booking_service.py, instrumented with the list of
courts for which a create-event call was issued (the write loop attempts one
call per requested court once it starts; every earlier exit performs none). -/
def create_booking_run (lookup : String → Option Facility) (cal : Calendar)
    (req : CreateBookingRequest) : CreateBookingResponse × List Int :=
  if !cal.initialized then
    ({ success := false, booking_id := none, message := none,
       error := some "Calendar service is not initialized. Please configure Google Calendar integration." }, [])
  else
    match lookup req.facility_id with
    | none =>
      ({ success := false, booking_id := none, message := none,
         error := some ("Facility not found: " ++ req.facility_id) }, [])
    | some facility =>
      if !(validate_booking_slot req.start_time req.duration_minutes facility.booking_rules).1 then
        ({ success := false, booking_id := none, message := none,
           error := some ("Invalid slot: "
             ++ (validate_booking_slot req.start_time req.duration_minutes facility.booking_rules).2) }, [])
      else
        if !(validate_court_numbers req.court_numbers facility.number_of_courts).1 then
          ({ success := false, booking_id := none, message := none,
             error := some ("Invalid court numbers: "
               ++ (validate_court_numbers req.court_numbers facility.number_of_courts).2) }, [])
        else
          match calculate_end_time req.start_time req.duration_minutes with
          | .error e =>
            ({ success := false, booking_id := none, message := none,
               error := some ("Error creating booking: " ++ e) }, [])
          | .ok end_time =>
            if !(is_within_operating_hours req.start_time end_time
                facility.open_time facility.close_time).1 then
              ({ success := false, booking_id := none, message := none,
                 error := some ("Outside operating hours: "
                   ++ (is_within_operating_hours req.start_time end_time
                     facility.open_time facility.close_time).2) }, [])
            else
              match combine_datetime req.date req.start_time with
              | .error e =>
                ({ success := false, booking_id := none, message := none,
                   error := some ("Error creating booking: " ++ e) }, [])
              | .ok _ =>
                match req.court_numbers.find? (fun c =>
                  !(get_available_courts cal facility.facility_id facility.number_of_courts).contains c) with
                | some c =>
                  ({ success := false, booking_id := none, message := none,
                     error := some ("Court " ++ toString c
                       ++ " is not available at the requested time") }, [])
                | none =>
                  if (collected_booking_ids cal req.court_numbers).isEmpty then
                    ({ success := false, booking_id := none, message := none,
                       error := some "Failed to create calendar events" }, req.court_numbers)
                  else
                    ({ success := true,
                       booking_id := some (pyJoin "," (collected_booking_ids cal req.court_numbers)),
                       message := some ("Booking confirmed for " ++ req.name ++ "! Courts "
                         ++ pyJoin ", " (req.court_numbers.map toString)
                         ++ " on " ++ req.date ++ " at " ++ req.start_time ++ " for "
                         ++ toString req.duration_minutes ++ " minutes."),
                       error := none }, req.court_numbers)

/-- The response of create_booking. -/
def create_booking (lookup : String → Option Facility) (cal : Calendar)
    (req : CreateBookingRequest) : CreateBookingResponse :=
  (create_booking_run lookup cal req).1

/-- The courts for which create_booking issued an external create-event call. -/
def attempted_write_courts (lookup : String → Option Facility) (cal : Calendar)
    (req : CreateBookingRequest) : List Int :=
  (create_booking_run lookup cal req).2

/-! ## Concrete fixtures used to instantiate the theorems -/

/-- A facility with two courts, open 06:00 to 22:00, default-style rules. -/
def fac1 : Facility :=
  { facility_id := "pickle_x", facility_name := "Pickle X", phone_number := "+911234",
    number_of_courts := 2, open_time := "06:00", close_time := "22:00",
    booking_rules := ⟨some 60, some 60, some true⟩ }

/-- A facility directory holding exactly fac1. -/
def lookupC : String → Option Facility :=
  fun s => if s == "pickle_x" then some fac1 else none

/-- An uninitialized calendar client. -/
def calUninit : Calendar :=
  { initialized := false, read := fun _ => .ok [], write := fun _ => none }

/-- An initialized calendar with no events; court 1's insert succeeds, court
2's insert fails. -/
def calPartial : Calendar :=
  { initialized := true, read := fun _ => .ok [],
    write := fun c => if c == 1 then some "id1" else none }

/-- An event marking the given court of fac1 as booked. -/
def busyEvent (n : Int) : CalEvent :=
  { summary := "Court " ++ toString n ++ " Booking - Bob",
    description := "Facility: Pickle X (pickle_x)" }

/-- An initialized calendar on which every court of fac1 is booked. -/
def calBusy : Calendar :=
  { initialized := true, read := fun _ => .ok [busyEvent 1, busyEvent 2],
    write := fun _ => some "idX" }

/-- An initialized calendar on which only court 2 of fac1 is booked and
every insert succeeds. -/
def calCourt2Busy : Calendar :=
  { initialized := true,
    read := fun c => if c == 2 then .ok [busyEvent 2] else .ok [],
    write := fun _ => some "idY" }

/-- An availability request for zero courts with a well-formed date. -/
def reqZero : CheckAvailabilityRequest :=
  { facility_id := "pickle_x", date := "2024-12-25", start_time := "14:00",
    duration_minutes := 60, number_of_courts := 0 }

/-- An availability request for zero courts whose date has a thirteenth month. -/
def reqBadDate : CheckAvailabilityRequest :=
  { facility_id := "pickle_x", date := "2024-13-45", start_time := "14:00",
    duration_minutes := 60, number_of_courts := 0 }

/-- An availability request for one court. -/
def reqOne : CheckAvailabilityRequest :=
  { facility_id := "pickle_x", date := "2024-12-25", start_time := "14:00",
    duration_minutes := 60, number_of_courts := 1 }

/-- A booking request for courts 1 and 2 of fac1. -/
def reqBook : CreateBookingRequest :=
  { facility_id := "pickle_x", date := "2024-12-25", start_time := "14:00",
    duration_minutes := 60, name := "Alice", phone_number := "+919876",
    court_numbers := [1, 2] }

/-! ## Shared helper lemmas -/

theorem charsPrefix_append (p r : List Char) : charsPrefix p (p ++ r) = true := by
  induction p with
  | nil => rfl
  | cons a as ih => simp [charsPrefix, ih]

theorem charsContains_self_append (p b : List Char) :
    charsContains p (p ++ b) = true := by
  cases p with
  | nil =>
    cases b with
    | nil => rfl
    | cons c r => simp [charsContains, charsPrefix]
  | cons q qs => simp [charsContains, charsPrefix, charsPrefix_append]

theorem charsContains_append (a p b : List Char) :
    charsContains p (a ++ p ++ b) = true := by
  induction a with
  | nil => simpa using charsContains_self_append p b
  | cons x xs ih =>
    have hx : x :: xs ++ p ++ b = x :: (xs ++ p ++ b) := by simp
    rw [hx]
    cases p with
    | nil => simp [charsContains, charsPrefix]
    | cons q qs =>
      simp only [charsContains, Bool.or_eq_true]
      exact Or.inr ih

/-- A string built around pat as an infix contains pat. -/
theorem containsStr_middle (a p b : String) : containsStr (a ++ p ++ b) p = true := by
  unfold containsStr
  rw [String.data_append, String.data_append]
  exact charsContains_append a.data p.data b.data

theorem mem_court_list (total c : Int) :
    c ∈ court_list total ↔ 1 ≤ c ∧ c ≤ total := by
  unfold court_list
  constructor
  · intro h
    obtain ⟨i, hi, hc⟩ := List.mem_map.mp h
    have hlt := List.mem_range.mp hi
    omega
  · rintro ⟨h1, h2⟩
    refine List.mem_map.mpr ⟨(c - 1).toNat, List.mem_range.mpr ?_, ?_⟩ <;> omega

theorem court_list_pairwise (total : Int) :
    (court_list total).Pairwise (· < ·) := by
  unfold court_list
  rw [List.pairwise_map]
  refine (List.pairwise_lt_range total.toNat).imp ?_
  intro a b h
  omega

/-! ## Claim C5 -/

/-- Claim C5 (amended): for well-formed HH:MM times is_within_operating_hours
returns the opens-reason exactly when start is before open, the closes-reason
exactly when start is not before open and end is after close (a joint
violation reports only the opens-reason, since that check runs first), and
success exactly when neither bound is crossed, so boundary-equal times pass. -/
theorem operating_hours_characterization (st et ot ct : String) (s e o c : Nat)
    (hs : parse_time st = some s) (he : parse_time et = some e)
    (ho : parse_time ot = some o) (hc : parse_time ct = some c) :
    (s < o → is_within_operating_hours st et ot ct = (false, "Facility opens at " ++ ot)) ∧
    (o ≤ s → c < e → is_within_operating_hours st et ot ct = (false, "Facility closes at " ++ ct)) ∧
    (o ≤ s → e ≤ c → is_within_operating_hours st et ot ct = (true, "")) := by
  unfold is_within_operating_hours
  simp only [hs, he, ho, hc]
  refine ⟨fun h1 => ?_, fun h1 h2 => ?_, fun h1 h2 => ?_⟩
  · rw [if_pos h1]
  · rw [if_neg (by omega), if_pos h2]
  · rw [if_neg (by omega), if_neg (by omega)]

/-- Witness for C5: a start one hour before opening is rejected with the
opens-reason. -/
theorem operating_hours_characterization_witness :
    is_within_operating_hours "05:00" "21:00" "06:00" "22:00" =
      (false, "Facility opens at " ++ "06:00") :=
  (operating_hours_characterization "05:00" "21:00" "06:00" "22:00"
    300 1260 360 1320 rfl rfl rfl rfl).1 (by decide)

/-- Counterexample for C5 as stated: here end (23:00) is after close (22:00),
yet the reported reason is the opens-reason, not the closes-reason, because
start is also before open and that check runs first. -/
theorem joint_violation_reports_opens_reason :
    is_within_operating_hours "05:00" "23:00" "06:00" "22:00" =
      (false, "Facility opens at 06:00") ∧
    parse_time "23:00" = some 1380 ∧ parse_time "22:00" = some 1320 ∧
    1320 < 1380 ∧
    "Facility opens at 06:00" ≠ "Facility closes at 22:00" := by
  decide

/-! ## Claim C8 -/

/-- Claim C8: calculate_end_time is the formatted value of start plus
duration modulo 1440 minutes whenever the start parses, so an end past
midnight wraps; concretely, start 21:00 with duration 240 yields end 01:00,
which parses below the 22:00 close, so the operating-hours check passes even
though the slot extends past closing (1320 < 1260 + 240). -/
theorem end_time_wraps_past_midnight :
    (∀ (st : String) (d : Int) (s : Nat), parse_time st = some s →
      calculate_end_time st d = .ok (format_hm (((s : Int) + d) % 1440).toNat)) ∧
    calculate_end_time "21:00" 240 = .ok "01:00" ∧
    is_within_operating_hours "21:00" "01:00" "06:00" "22:00" = (true, "") ∧
    parse_time "21:00" = some 1260 ∧ parse_time "01:00" = some 60 ∧
    parse_time "22:00" = some 1320 ∧ 1320 < 1260 + 240 := by
  refine ⟨?_, rfl, by decide, rfl, rfl, rfl, by decide⟩
  intro st d s hs
  unfold calculate_end_time
  rw [hs]

/-- Witness for C8: the general wrap formula applied at 22:30 plus 120
minutes. -/
theorem end_time_wraps_past_midnight_witness :
    calculate_end_time "22:30" 120 =
      .ok (format_hm ((((1350 : Nat) : Int) + 120) % 1440).toNat) :=
  end_time_wraps_past_midnight.1 "22:30" 120 1350 rfl

/-! ## Claim C10 -/

/-- Claim C10: when a booking_rules key is absent validate_booking_slot
behaves as if it were present with its default: fixed_slots defaults to
true, minimum_duration and duration_multiples default to 60. -/
theorem validate_booking_slot_defaults (st : String) (d : Int)
    (md dm : Option Int) (fs : Option Bool) :
    validate_booking_slot st d ⟨md, dm, none⟩ = validate_booking_slot st d ⟨md, dm, some true⟩ ∧
    validate_booking_slot st d ⟨none, dm, fs⟩ = validate_booking_slot st d ⟨some 60, dm, fs⟩ ∧
    validate_booking_slot st d ⟨md, none, fs⟩ = validate_booking_slot st d ⟨md, some 60, fs⟩ :=
  ⟨rfl, rfl, rfl⟩

/-! ## Claim C7 -/

/-- Claim C7 (amended): with fixed_slots true the alignment check accepts a
start_time exactly when splitting it on the colon yields exactly two pieces
whose second parses as the integer zero; a wrong piece count or a
non-integer minute piece is rejected with the format-error reason, and a
non-zero integer minute with the hourly-boundary reason.  The hour piece is
never inspected, so a string malformed only in its hour part is accepted. -/
theorem slot_alignment_characterization (st : String) :
    (validate_slot_alignment st = (true, "") ↔
      ∃ hp mp, pySplit st ':' = [hp, mp] ∧ pyInt mp = some 0) ∧
    (∀ hp mp v, pySplit st ':' = [hp, mp] → pyInt mp = some v → v ≠ 0 →
      validate_slot_alignment st = (false,
        "Start time must align with hourly boundaries (e.g., 06:00, 14:00). Got " ++ st)) ∧
    (∀ hp mp, pySplit st ':' = [hp, mp] → pyInt mp = none →
      validate_slot_alignment st = (false, "Invalid time format: " ++ st ++ ". Expected HH:MM")) ∧
    ((pySplit st ':').length ≠ 2 →
      validate_slot_alignment st = (false, "Invalid time format: " ++ st ++ ". Expected HH:MM")) := by
  refine ⟨⟨?_, ?_⟩, ?_, ?_, ?_⟩
  · intro h
    unfold validate_slot_alignment at h
    rcases hsp : pySplit st ':' with _ | ⟨hp0, _ | ⟨mp0, _ | ⟨x, rest⟩⟩⟩ <;>
      rw [hsp] at h <;> simp only [] at h
    · simp at h
    · simp at h
    · rcases hpi : pyInt mp0 with _ | v <;> rw [hpi] at h <;> simp only [] at h
      · simp at h
      · by_cases hv : v = 0
        · exact ⟨hp0, mp0, rfl, by rw [hpi, hv]⟩
        · rw [if_pos (by simpa using hv)] at h
          simp at h
    · simp at h
  · rintro ⟨hp, mp, hsp, hpi⟩
    unfold validate_slot_alignment
    rw [hsp]
    simp only [hpi]
    simp
  · intro hp mp v hsp hpi hv
    unfold validate_slot_alignment
    rw [hsp]
    simp only [hpi]
    rw [if_pos (by simpa using hv)]
  · intro hp mp hsp hpi
    unfold validate_slot_alignment
    rw [hsp]
    simp only [hpi]
  · intro hlen
    unfold validate_slot_alignment
    rcases hsp : pySplit st ':' with _ | ⟨hp0, _ | ⟨mp0, _ | ⟨x, rest⟩⟩⟩
    · rfl
    · rfl
    · rw [hsp] at hlen
      simp at hlen
    · rfl

/-- Witness for C7: a zero minute is accepted, a half-hour minute gets the
hourly-boundary reason, a non-numeric minute gets the format reason. -/
theorem slot_alignment_characterization_witness :
    validate_slot_alignment "14:00" = (true, "") ∧
    validate_slot_alignment "14:30" = (false,
      "Start time must align with hourly boundaries (e.g., 06:00, 14:00). Got " ++ "14:30") ∧
    validate_slot_alignment "14:xx" = (false,
      "Invalid time format: " ++ "14:xx" ++ ". Expected HH:MM") :=
  ⟨(slot_alignment_characterization "14:00").1.mpr ⟨"14", "00", rfl, rfl⟩,
   (slot_alignment_characterization "14:30").2.1 "14" "30" 30 rfl rfl (by decide),
   (slot_alignment_characterization "14:xx").2.2.1 "14" "xx" rfl rfl⟩

/-- Counterexample for C7 as stated: the string "ab:00" is not of the form
HH:MM with a numeric hour (parse_time rejects it), yet the alignment check
and the whole fixed-slots slot validation accept it, because only the minute
piece is inspected. -/
theorem nonnumeric_hour_accepted :
    validate_slot_alignment "ab:00" = (true, "") ∧
    validate_booking_slot "ab:00" 60 ⟨some 60, some 60, some true⟩ = (true, "") ∧
    parse_time "ab:00" = none := by
  decide

/-! ## Claim C6 -/

/-- Claim C6 (amended): for a duration that is not an exact multiple of the
facility's duration_multiples (and a start time passing alignment, or no
fixed slots), validate_booking_slot returns false; the reason contains the
configured multiple when the duration also meets the minimum, but a duration
below the minimum is reported with the minimum-duration reason instead,
which need not mention the multiple. -/
theorem duration_multiple_reason (st : String) (d : Int) (rules : BookingRules)
    (halign : rules.fixed_slots.getD true = false ∨ (validate_slot_alignment st).1 = true)
    (hmult : d % rules.duration_multiples.getD 60 ≠ 0) :
    (validate_booking_slot st d rules).1 = false ∧
    (rules.minimum_duration.getD 60 ≤ d →
      (validate_booking_slot st d rules).2 =
        "Duration must be a multiple of " ++ toString (rules.duration_multiples.getD 60)
          ++ " minutes. Got " ++ toString d ∧
      containsStr (validate_booking_slot st d rules).2
        (toString (rules.duration_multiples.getD 60)) = true) := by
  have hcond : (rules.fixed_slots.getD true && !(validate_slot_alignment st).1) = false := by
    rcases halign with h | h <;> simp [h]
  have hdur : (validate_duration d (rules.minimum_duration.getD 60)
      (rules.duration_multiples.getD 60)).1 = false := by
    unfold validate_duration
    rcases lt_or_le d (rules.minimum_duration.getD 60) with hlt | hle
    · rw [if_pos hlt]
    · rw [if_neg (by omega), if_pos (by simpa using hmult)]
  have hres : validate_booking_slot st d rules =
      (false, (validate_duration d (rules.minimum_duration.getD 60)
        (rules.duration_multiples.getD 60)).2) := by
    unfold validate_booking_slot
    rw [hcond]
    simp only [Bool.false_eq_true, if_false, hdur, Bool.not_false, if_pos]
  refine ⟨by rw [hres], fun hle => ?_⟩
  have hmsg : (validate_duration d (rules.minimum_duration.getD 60)
      (rules.duration_multiples.getD 60)).2 =
      "Duration must be a multiple of " ++ toString (rules.duration_multiples.getD 60)
        ++ " minutes. Got " ++ toString d := by
    unfold validate_duration
    rw [if_neg (by omega), if_pos (by simpa using hmult)]
  refine ⟨by rw [hres, hmsg], ?_⟩
  rw [hres, hmsg]
  have hassoc : "Duration must be a multiple of "
      ++ toString (rules.duration_multiples.getD 60) ++ " minutes. Got " ++ toString d =
      "Duration must be a multiple of " ++ toString (rules.duration_multiples.getD 60)
        ++ (" minutes. Got " ++ toString d) := by
    rw [String.append_assoc]
  rw [hassoc]
  exact containsStr_middle "Duration must be a multiple of "
    (toString (rules.duration_multiples.getD 60)) (" minutes. Got " ++ toString d)

/-- Witness for C6: default rules, duration 90 meets the minimum but is not
a multiple of 60; the reason names the multiple and contains "60". -/
theorem duration_multiple_reason_witness :
    (validate_booking_slot "14:00" 90 ⟨some 60, some 60, some true⟩).1 = false ∧
    containsStr (validate_booking_slot "14:00" 90 ⟨some 60, some 60, some true⟩).2
      (toString ((60 : Int))) = true :=
  ⟨(duration_multiple_reason "14:00" 90 ⟨some 60, some 60, some true⟩
      (Or.inr (by decide)) (by decide)).1,
   ((duration_multiple_reason "14:00" 90 ⟨some 60, some 60, some true⟩
      (Or.inr (by decide)) (by decide)).2 (by decide)).2⟩

/-- Counterexample for C6 as stated: duration 30 is not a multiple of the
configured 60, but because it is also below the configured minimum of 90 the
reason reports the minimum, and the string "60" does not occur in it. -/
theorem below_minimum_reason_omits_multiple :
    validate_booking_slot "14:00" 30 ⟨some 90, some 60, some true⟩ =
      (false, "Duration must be at least 90 minutes") ∧
    containsStr "Duration must be at least 90 minutes" "60" = false ∧
    (30 : Int) % 60 ≠ 0 := by
  decide

/-! ## Claim C4 -/

/-- Claim C4: the availability resolver returns exactly the court numbers
among 1..total_courts whose individual store check reports the court free,
in ascending order; a court is treated as free whenever the client is
uninitialized or its read errors (fail open), so an uninitialized client, or
one on which every read errors, yields the full list 1..total_courts. -/
theorem get_available_courts_spec (cal : Calendar) (fid : String) (total : Int) :
    (∀ c : Int, c ∈ get_available_courts cal fid total ↔
      1 ≤ c ∧ c ≤ total ∧ check_court_availability cal c fid = true) ∧
    (get_available_courts cal fid total).Pairwise (· < ·) ∧
    (cal.initialized = false → ∀ c : Int, check_court_availability cal c fid = true) ∧
    (∀ c e, cal.read c = .error e → check_court_availability cal c fid = true) ∧
    (cal.initialized = false → get_available_courts cal fid total = court_list total) ∧
    ((∀ k, cal.read k = .error ()) → get_available_courts cal fid total = court_list total) := by
  have hopen1 : cal.initialized = false → ∀ c : Int, check_court_availability cal c fid = true := by
    intro h c
    unfold check_court_availability
    rw [h]
    rfl
  have hopen2 : ∀ (c : Int) (e : Unit), cal.read c = .error e →
      check_court_availability cal c fid = true := by
    intro c e h
    unfold check_court_availability
    rcases hinit : cal.initialized <;> simp [hinit, h]
  refine ⟨?_, ?_, hopen1, hopen2, ?_, ?_⟩
  · intro c
    unfold get_available_courts
    rw [List.mem_filter, mem_court_list]
    tauto
  · exact (court_list_pairwise total).filter _
  · intro h
    unfold get_available_courts
    exact List.filter_eq_self.mpr (fun a _ => hopen1 h a)
  · intro h
    unfold get_available_courts
    exact List.filter_eq_self.mpr (fun a _ => hopen2 a () (h a))

/-- Witness for C4: an uninitialized client yields the full court list. -/
theorem get_available_courts_spec_witness :
    get_available_courts calUninit "pickle_x" 3 = court_list 3 ∧
    court_list 3 = [1, 2, 3] :=
  ⟨(get_available_courts_spec calUninit "pickle_x" 3).2.2.2.2.1 rfl, by decide⟩

/-! ## Claim C2 -/

/-- Claim C2: whenever check_availability reports available = true, the
free-court list in the response (the resolver's result at evaluation time)
has at least the requested number_of_courts elements. -/
theorem check_availability_capacity_invariant (lookup : String → Option Facility)
    (cal : Calendar) (req : CheckAvailabilityRequest)
    (h : (check_availability lookup cal req).available = true) :
    req.number_of_courts ≤ ((check_availability lookup cal req).free_courts.length : Int) := by
  revert h
  unfold check_availability
  repeat' split
  all_goals intro h
  all_goals dsimp only at h ⊢
  all_goals first
    | omega
    | exact absurd h (by simp)

/-- Witness for C2: an uninitialized calendar frees both courts of fac1, the
check reports available for one requested court, and 1 is at most the length
of the free list. -/
theorem check_availability_capacity_invariant_witness :
    reqOne.number_of_courts ≤
      ((check_availability lookupC calUninit reqOne).free_courts.length : Int) :=
  check_availability_capacity_invariant lookupC calUninit reqOne (by decide)

/-! ## Claim C9 -/

/-- Claim C9 (amended): check_availability never validates the requested
number_of_courts: a request with number_of_courts at most zero that passes
facility lookup, slot validation and the operating-hours check, and whose
date string parses (a malformed date still aborts with an error response
before the resolver runs), is answered success = true and available = true
whatever the resolver returns, because a non-positive request can never
exceed the free-court count. -/
theorem nonpositive_court_request_reports_available (lookup : String → Option Facility)
    (cal : Calendar) (req : CheckAvailabilityRequest) (facility : Facility) (et : String)
    (hfac : lookup req.facility_id = some facility)
    (hslot : (validate_booking_slot req.start_time req.duration_minutes
      facility.booking_rules).1 = true)
    (het : calculate_end_time req.start_time req.duration_minutes = .ok et)
    (hhours : (is_within_operating_hours req.start_time et
      facility.open_time facility.close_time).1 = true)
    (hdate : combine_datetime req.date req.start_time = .ok ())
    (hn : req.number_of_courts ≤ 0) :
    check_availability lookup cal req =
      { success := true, available := true,
        free_courts := get_available_courts cal facility.facility_id facility.number_of_courts,
        reason_if_not_available := none, error := none } := by
  unfold check_availability
  simp only [hfac, hslot, het, hhours, hdate, Bool.not_true, Bool.false_eq_true, if_false]
  rw [if_neg (show ¬(((get_available_courts cal facility.facility_id
    facility.number_of_courts).length : Int) < req.number_of_courts) by omega)]

/-- Witness for C9: a calendar on which every court of fac1 is booked leaves
no free court, yet the zero-court request is answered available = true. -/
theorem nonpositive_court_request_reports_available_witness :
    check_availability lookupC calBusy reqZero =
      { success := true, available := true,
        free_courts := get_available_courts calBusy fac1.facility_id fac1.number_of_courts,
        reason_if_not_available := none, error := none } ∧
    get_available_courts calBusy fac1.facility_id fac1.number_of_courts = [] :=
  ⟨nonpositive_court_request_reports_available lookupC calBusy reqZero fac1 "15:00"
      rfl (by decide) rfl (by decide) rfl (by decide),
   by decide⟩

/-- Counterexample for C9 as stated: this zero-court request passes facility
lookup, slot validation and the operating-hours check, yet the response is a
failure (success = false, available = false), because its malformed date
(month 13) raises inside the orchestrator before the resolver is consulted. -/
theorem malformed_date_fails_despite_nonpositive_request :
    lookupC reqBadDate.facility_id = some fac1 ∧
    (validate_booking_slot reqBadDate.start_time reqBadDate.duration_minutes
      fac1.booking_rules).1 = true ∧
    calculate_end_time reqBadDate.start_time reqBadDate.duration_minutes = .ok "15:00" ∧
    (is_within_operating_hours reqBadDate.start_time "15:00"
      fac1.open_time fac1.close_time).1 = true ∧
    reqBadDate.number_of_courts ≤ 0 ∧
    (check_availability lookupC calUninit reqBadDate).success = false ∧
    (check_availability lookupC calUninit reqBadDate).available = false ∧
    (check_availability lookupC calUninit reqBadDate).error =
      some "Error checking availability: Invalid date format: 2024-13-45. Expected YYYY-MM-DD format." :=
  ⟨rfl, by decide, rfl, by decide, by decide, by decide, by decide, by decide⟩

/-! ## Claim C3 -/

/-- Claim C3: once a create_booking request has passed every earlier gate
(initialized client, facility lookup, slot validation, court-number
validation, end-time computation, operating hours, date parse), a requested
court missing from the freshly resolved free set makes the operation fail
with the "Court N is not available at the requested time" error for the
first such court in request order, and the write loop is never entered:
zero external create-event calls are made. -/
theorem create_booking_aborts_before_writes (lookup : String → Option Facility)
    (cal : Calendar) (req : CreateBookingRequest) (facility : Facility)
    (et : String) (c : Int)
    (hinit : cal.initialized = true)
    (hfac : lookup req.facility_id = some facility)
    (hslot : (validate_booking_slot req.start_time req.duration_minutes
      facility.booking_rules).1 = true)
    (hcourts : (validate_court_numbers req.court_numbers facility.number_of_courts).1 = true)
    (het : calculate_end_time req.start_time req.duration_minutes = .ok et)
    (hhours : (is_within_operating_hours req.start_time et
      facility.open_time facility.close_time).1 = true)
    (hdate : combine_datetime req.date req.start_time = .ok ())
    (hfind : req.court_numbers.find? (fun k =>
      !(get_available_courts cal facility.facility_id facility.number_of_courts).contains k)
      = some c) :
    create_booking lookup cal req =
      { success := false, booking_id := none, message := none,
        error := some ("Court " ++ toString c ++ " is not available at the requested time") } ∧
    attempted_write_courts lookup cal req = [] := by
  unfold create_booking attempted_write_courts create_booking_run
  simp only [hinit, hfac, hslot, hcourts, het, hhours, hdate, hfind, Bool.not_true,
    Bool.false_eq_true, if_false]
  exact ⟨trivial, trivial⟩

/-- Witness for C3: court 2 of fac1 is booked externally, the request asks
for courts 1 and 2, and the operation aborts on court 2 with no write. -/
theorem create_booking_aborts_before_writes_witness :
    create_booking lookupC calCourt2Busy reqBook =
      { success := false, booking_id := none, message := none,
        error := some ("Court " ++ toString (2 : Int)
          ++ " is not available at the requested time") } ∧
    attempted_write_courts lookupC calCourt2Busy reqBook = [] :=
  create_booking_aborts_before_writes lookupC calCourt2Busy reqBook fac1 "15:00" 2
    rfl rfl (by decide) (by decide) rfl (by decide) rfl (by decide)

/-! ## Claim C1 -/

/-- Claim C1 (amended): once the write loop of create_booking is reached
(every earlier gate passed and every requested court in the free set), one
create-event call is issued per requested court, and the result has
success = true exactly when the collected id list is non-empty, that is,
when at least one call returned a non-empty id; a partial write (some courts
yielding ids, some not) is therefore still reported as overall success. -/
theorem create_booking_success_iff_some_id (lookup : String → Option Facility)
    (cal : Calendar) (req : CreateBookingRequest) (facility : Facility) (et : String)
    (hinit : cal.initialized = true)
    (hfac : lookup req.facility_id = some facility)
    (hslot : (validate_booking_slot req.start_time req.duration_minutes
      facility.booking_rules).1 = true)
    (hcourts : (validate_court_numbers req.court_numbers facility.number_of_courts).1 = true)
    (het : calculate_end_time req.start_time req.duration_minutes = .ok et)
    (hhours : (is_within_operating_hours req.start_time et
      facility.open_time facility.close_time).1 = true)
    (hdate : combine_datetime req.date req.start_time = .ok ())
    (hfind : req.court_numbers.find? (fun k =>
      !(get_available_courts cal facility.facility_id facility.number_of_courts).contains k)
      = none) :
    (create_booking lookup cal req).success =
      !(collected_booking_ids cal req.court_numbers).isEmpty ∧
    attempted_write_courts lookup cal req = req.court_numbers := by
  unfold create_booking attempted_write_courts create_booking_run
  simp only [hinit, hfac, hslot, hcourts, het, hhours, hdate, hfind, Bool.not_true,
    Bool.false_eq_true, if_false]
  rcases hb : (collected_booking_ids cal req.court_numbers).isEmpty <;> simp [hb]

/-- Witness for C1 (amended): the partial-write calendar yields the id of
court 1 only, the id list is non-empty, and the booking reports success
after attempting both writes. -/
theorem create_booking_success_iff_some_id_witness :
    (create_booking lookupC calPartial reqBook).success = true ∧
    attempted_write_courts lookupC calPartial reqBook = [1, 2] := by
  have h := create_booking_success_iff_some_id lookupC calPartial reqBook fac1 "15:00"
    rfl rfl (by decide) (by decide) rfl (by decide) rfl (by decide)
  exact ⟨by rw [h.1]; decide, h.2⟩

/-- Counterexample for C1 as stated: both requested courts are free and both
create-event calls are issued, but only court 1's insert returns an id; the
claim requires overall failure on such a partial write, yet the code
reports success = true with the single id as the booking id. -/
theorem partial_write_reports_success :
    create_booking lookupC calPartial reqBook =
      { success := true, booking_id := some "id1",
        message := some "Booking confirmed for Alice! Courts 1, 2 on 2024-12-25 at 14:00 for 60 minutes.",
        error := none } ∧
    reqBook.court_numbers = [1, 2] ∧
    create_booking_event calPartial 1 = some "id1" ∧
    create_booking_event calPartial 2 = none :=
  ⟨by decide, rfl, rfl, rfl⟩

end CallingAgent
